import Mathlib

/-!
Shallow embedding of the `Result` algebra from `src/primitives/result/index.ts`
of the vize repository, together with proofs of the specified combinator laws.

The embedding has two layers:

* a pure value layer (`Vize.Val`, `Vize.Res`) in which each combinator is a
  total function translated clause-by-clause from the `Ok` / `Err` class
  methods; JavaScript payload values form a closed universe `Val` that
  includes the empty sentinel and nested `Result` instances (needed because
  `unfold` tests `value instanceof Result` at run time), and the optional
  arguments of `Ok()` / `Err()` / `check` / `assert` are modelled as
  `Option Val` (`none` = argument absent);

* an identity-aware heap layer (`Vize.Heap`) in which `Result` instances are
  numbered cells of a store, used to reason about object identity and
  mutation (which the pure layer cannot observe).
-/

namespace Vize

mutual

/-- Payload universe: primitive JavaScript values, the `EMPTY` sentinel
(modelled from the spec: `EMPTY : Empty` is imported from outside the
`Result` module; the spec describes it as a unit-like placeholder value),
and `Result` instances themselves (a payload can be a `Result`, which is
what `unfold` detects with `value instanceof Result`). -/
inductive Val : Type where
  | empty : Val
  | int : Int → Val
  | str : String → Val
  | res : Res → Val

/-- A `Result` value: either the `Ok` variant holding a success payload or
the `Err` variant holding an error payload, as in the two concrete classes
`Ok<V>` and `Err<E>`. -/
inductive Res : Type where
  | Ok : Val → Res
  | Err : Val → Res

end

/-- The two members of `Result.ERROR`: the native errors thrown by
`Err.take` and `Ok.takeErr`. -/
inductive TakeError : Type where
  | take : TakeError
  | takeErr : TakeError
deriving DecidableEq

/-- The message of each member of `Result.ERROR`, as in the source. -/
def TakeError.message : TakeError → String
  | .take => "Trying to take value from `Err` instance"
  | .takeErr => "Trying to take error from `Ok` instance"

/-- `Ok.take` returns the stored value; `Err.take` throws `Result.ERROR.take`. -/
def Res.take : Res → Except TakeError Val
  | .Ok v => Except.ok v
  | .Err _ => Except.error TakeError.take

/-- `Err.takeErr` returns the stored error; `Ok.takeErr` throws
`Result.ERROR.takeErr`. -/
def Res.takeErr : Res → Except TakeError Val
  | .Ok _ => Except.error TakeError.takeErr
  | .Err e => Except.ok e

/-- `Ok.isOk` returns `true`; `Err.isOk` returns `false`. -/
def Res.isOk : Res → Bool
  | .Ok _ => true
  | .Err _ => false

/-- `Err.isErr` returns `true`; `Ok.isErr` returns `false`. -/
def Res.isErr : Res → Bool
  | .Ok _ => false
  | .Err _ => true

/-- The static constructor `Result.Ok(value?)`:
`value !== undefined ? new Ok(value) : new Ok(EMPTY)`.
The optional argument is `Option Val`; `none` is an absent argument. -/
def Result.mkOk : Option Val → Res
  | some v => Res.Ok v
  | none => Res.Ok Val.empty

/-- The static constructor `Result.Err(error?)`:
`error !== undefined ? new Err(error) : new Err(EMPTY)`. -/
def Result.mkErr : Option Val → Res
  | some e => Res.Err e
  | none => Res.Err Val.empty

/-- `value instanceof Result`: whether a payload is itself a `Result`. -/
def Val.isRes : Val → Bool
  | .res _ => true
  | _ => false

/-- `Result.toUnion`: returns `this` when the receiver is an `Ok` or `Err`
instance, and otherwise throws.  Every value of `Res` is one of the two, so
the throwing branch is unreachable; the `Except` codomain records it. -/
def Res.toUnion (r : Res) : Except String Res :=
  match r with
  | .Ok _ => Except.ok r
  | .Err _ => Except.ok r

/-- `Result.unfold`: on `Err`, returns `this`; on `Ok` whose payload is not a
`Result` instance, returns `this`; on `Ok` whose payload is a `Result`,
returns that payload. -/
def Res.unfold (r : Res) : Res :=
  match r with
  | .Err _ => r
  | .Ok v =>
    match v with
    | .res inner => inner
    | _ => r

/-- `Ok.map(mapper) = Result.Ok(mapper(this.value))`; `Err.map` returns
`this`. -/
def Res.map (r : Res) (mapper : Val → Val) : Res :=
  match r with
  | .Ok v => Result.mkOk (some (mapper v))
  | .Err _ => r

/-- `Err.refine(mapper) = Result.Err(mapper(this.error))`; `Ok.refine`
returns `this`. -/
def Res.refine (r : Res) (mapper : Val → Val) : Res :=
  match r with
  | .Ok _ => r
  | .Err e => Result.mkErr (some (mapper e))

/-- `Ok.chain(f) = Result.Ok(f(this.value)).unfold()`; `Err.chain` returns
`this`. -/
def Res.chain (r : Res) (f : Val → Res) : Res :=
  match r with
  | .Ok v => (Result.mkOk (some (Val.res (f v)))).unfold
  | .Err _ => r

/-- `Result.check(predicate, error?)`: `if (this.isErr()) return this;
if (predicate(this.take())) return this;
return error !== undefined ? Result.Err(error) : Result.Err()`. -/
def Res.check (r : Res) (predicate : Val → Bool) (error : Option Val) : Res :=
  match r with
  | .Err _ => r
  | .Ok v => if predicate v then r else Result.mkErr error

/-- `Result.assert(guard, error?)`: same control flow as `check` (the type
narrowing is compile-time only). -/
def Res.assert (r : Res) (guard : Val → Bool) (error : Option Val) : Res :=
  match r with
  | .Err _ => r
  | .Ok v => if guard v then r else Result.mkErr error

/-- The alternative argument of `or` / `orIf`: either a literal `Result` or
a function of the failure payload (`typeof other === "function"`). -/
inductive Alt : Type where
  | val : Res → Alt
  | fn : (Val → Res) → Alt

/-- Evaluating the alternative against the failure payload. -/
def Alt.run : Alt → Val → Res
  | .val r, _ => r
  | .fn f, e => f e

/-- `Result.or(other)`: `if (this.isOk()) return this;
return typeof other === "function" ? other(this.takeErr()) : other`. -/
def Res.or (r : Res) (other : Alt) : Res :=
  match r with
  | .Ok _ => r
  | .Err e => other.run e

/-- `Result.orIf(predicate, other)`: `if (this.isOk()) return this;
return predicate(this.takeErr()) ? (... other ...) : this`. -/
def Res.orIf (r : Res) (predicate : Val → Bool) (other : Alt) : Res :=
  match r with
  | .Ok _ => r
  | .Err e => if predicate e then other.run e else r

/-- `Ok.onOk(fn)`: runs `fn(this.value)` for its side effect and returns
`this`; `Err.onOk` returns `this` without running the effect.  The effect is
modelled as a state transformer on an arbitrary state type `σ`; the pair
returned is (result, state after the call). -/
def Res.onOk {σ : Type} (r : Res) (effect : Val → σ → σ) (s : σ) : Res × σ :=
  match r with
  | .Ok v => (r, effect v s)
  | .Err _ => (r, s)

/-- `Err.onErr(fn)`: runs `fn(this.error)` for its side effect and returns
`this`; `Ok.onErr` returns `this` without running the effect. -/
def Res.onErr {σ : Type} (r : Res) (effect : Val → σ → σ) (s : σ) : Res × σ :=
  match r with
  | .Ok _ => (r, s)
  | .Err e => (r, effect e s)

/-- `Result.FromTryCatch(fn, mapper?)`: the thunk `fn` either returns a value
(`Except.ok`) or throws one (`Except.error`); the source is
`try { return Result.Ok(fn()) } catch (e) { return mapper ? Result.Err(mapper(e)) : Result.Err(e) }`. -/
def Result.FromTryCatch (fn : Except Val Val) (mapper : Option (Val → Val)) : Res :=
  match fn with
  | .ok v => Result.mkOk (some v)
  | .error e =>
    match mapper with
    | some m => Result.mkErr (some (m e))
    | none => Result.mkErr (some e)

/-!
Identity-aware layer.  `Result` instances are numbered cells of a heap; a
payload is either a primitive value or a reference to another instance.
Each combinator is re-translated from the source at this level so that
`return this` (same id back, heap untouched) is distinguishable from
`new Ok(...)` / `new Err(...)` (a fresh cell is allocated).
-/

/-- A heap-level payload: a primitive, the empty sentinel, or a reference to
a `Result` instance (`ref i` plays the role of `instanceof Result`). -/
inductive HVal : Type where
  | empty : HVal
  | int : Int → HVal
  | str : String → HVal
  | ref : Nat → HVal
deriving DecidableEq

/-- A stored `Result` instance: its variant tag (`ok = true` for `Ok`) and
its payload field (`_value` of `Ok`, `_error` of `Err`). -/
structure Cell : Type where
  ok : Bool
  payload : HVal
deriving DecidableEq

/-- The store of all constructed `Result` instances: ids below `next` are
allocated; `mem` gives each cell. -/
structure Heap : Type where
  next : Nat
  mem : Nat → Cell

/-- Allocation of a fresh instance (`new Ok(...)` / `new Err(...)`): the new
cell is written at the fresh id `next` and the id is returned. -/
def Heap.alloc (h : Heap) (c : Cell) : Heap × Nat :=
  (⟨h.next + 1, fun i => if i = h.next then c else h.mem i⟩, h.next)

/-- `h2` extends `h1`: every instance already constructed in `h1` has the
same variant tag and payload in `h2`.  This is the no-mutation property. -/
def Heap.Ext (h2 h1 : Heap) : Prop :=
  h1.next ≤ h2.next ∧ ∀ i, i < h1.next → h2.mem i = h1.mem i

/-- `Ok.map` / `Err.map` at the heap level: an `Ok` receiver allocates a new
`Ok` via `Result.Ok(mapper(this.value))`; an `Err` receiver returns `this`. -/
def Heap.mapH (h : Heap) (self : Nat) (mapper : HVal → HVal) : Heap × Nat :=
  let c := h.mem self
  if c.ok then h.alloc ⟨true, mapper c.payload⟩ else (h, self)

/-- `refine` at the heap level: an `Err` receiver allocates a new `Err` via
`Result.Err(mapper(this.error))`; an `Ok` receiver returns `this`. -/
def Heap.refineH (h : Heap) (self : Nat) (mapper : HVal → HVal) : Heap × Nat :=
  let c := h.mem self
  if c.ok then (h, self) else h.alloc ⟨false, mapper c.payload⟩

/-- `check` at the heap level: `Err` receivers and passing `Ok` receivers
return `this`; a failing `Ok` receiver allocates a new `Err` holding the
given error, or the empty sentinel when none was given. -/
def Heap.checkH (h : Heap) (self : Nat) (predicate : HVal → Bool)
    (error : Option HVal) : Heap × Nat :=
  let c := h.mem self
  if c.ok then
    if predicate c.payload then (h, self)
    else h.alloc ⟨false, error.getD HVal.empty⟩
  else (h, self)

/-- `assert` at the heap level: identical control flow to `check`. -/
def Heap.assertH (h : Heap) (self : Nat) (guard : HVal → Bool)
    (error : Option HVal) : Heap × Nat :=
  let c := h.mem self
  if c.ok then
    if guard c.payload then (h, self)
    else h.alloc ⟨false, error.getD HVal.empty⟩
  else (h, self)

/-- `unfold` at the heap level: an `Err` receiver returns `this`; an `Ok`
receiver whose payload is a `Result` reference returns that instance,
otherwise `this`.  No allocation ever happens. -/
def Heap.unfoldH (h : Heap) (self : Nat) : Heap × Nat :=
  let c := h.mem self
  if c.ok then
    match c.payload with
    | .ref i => (h, i)
    | _ => (h, self)
  else (h, self)

/-- `chain` at the heap level: an `Ok` receiver runs the user function on the
payload (the function may allocate instances of its own and returns the id of
the `Result` it produced), wraps that id in a freshly allocated `Ok` and
unfolds it, exactly as `Result.Ok(chain(this.value)).unfold()`; an `Err`
receiver returns `this`. -/
def Heap.chainH (h : Heap) (self : Nat) (f : HVal → Heap → Heap × Nat) :
    Heap × Nat :=
  let c := h.mem self
  if c.ok then
    let fr := f c.payload h
    let wrapped := fr.1.alloc ⟨true, HVal.ref fr.2⟩
    Heap.unfoldH wrapped.1 wrapped.2
  else (h, self)

/-- An `or` / `orIf` alternative at the heap level: a literal instance id or
a function of the failure payload that may allocate. -/
inductive HAlt : Type where
  | val : Nat → HAlt
  | fn : (HVal → Heap → Heap × Nat) → HAlt

/-- Evaluating a heap-level alternative against the failure payload. -/
def HAlt.run : HAlt → HVal → Heap → Heap × Nat
  | .val i, _, h => (h, i)
  | .fn f, e, h => f e h

/-- A heap-level alternative never mutates existing instances: the literal
case touches nothing, and the function case is assumed to only extend. -/
def HAlt.Extends : HAlt → Prop
  | .val _ => True
  | .fn f => ∀ e h, Heap.Ext (f e h).1 h

/-- `or` at the heap level: an `Ok` receiver returns `this`; an `Err`
receiver returns the alternative. -/
def Heap.orH (h : Heap) (self : Nat) (other : HAlt) : Heap × Nat :=
  let c := h.mem self
  if c.ok then (h, self) else other.run c.payload h

/-- `orIf` at the heap level: an `Ok` receiver returns `this`; an `Err`
receiver returns the alternative when the predicate holds of the failure
payload and `this` otherwise. -/
def Heap.orIfH (h : Heap) (self : Nat) (predicate : HVal → Bool)
    (other : HAlt) : Heap × Nat :=
  let c := h.mem self
  if c.ok then (h, self)
  else if predicate c.payload then other.run c.payload h else (h, self)

/-- `onOk` at the heap level: an `Ok` receiver runs the effect (which may
allocate instances but, like all well-typed code, cannot reach the private
fields of existing ones) and returns `this`; an `Err` receiver returns
`this`. -/
def Heap.onOkH (h : Heap) (self : Nat) (effect : HVal → Heap → Heap) :
    Heap × Nat :=
  let c := h.mem self
  if c.ok then (effect c.payload h, self) else (h, self)

/-- `onErr` at the heap level: symmetric to `onOk`. -/
def Heap.onErrH (h : Heap) (self : Nat) (effect : HVal → Heap → Heap) :
    Heap × Nat :=
  let c := h.mem self
  if c.ok then (h, self) else (effect c.payload h, self)

/-- The heap in which a single `Err` instance holding the primitive `7` has
been constructed, with id `0`. -/
def errHeap : Heap :=
  ⟨1, fun _ => ⟨false, HVal.int 7⟩⟩

/-!  Theorems.  -/

/-- C1: `chain` satisfies the monad identity laws: `Ok(v).chain(f)` equals
`f(v)` for every value and every `Result`-returning function (left identity),
and `r.chain(x => Ok(x))` equals `r` for every `Result` (right identity). -/
theorem c1_chain_identity_laws :
    (∀ (v : Val) (f : Val → Res), (Res.Ok v).chain f = f v) ∧
    (∀ r : Res, r.chain (fun x => Result.mkOk (some x)) = r) := by
  constructor
  · intro v f
    rfl
  · intro r
    cases r <;> rfl

/-- C1 witness: the laws applied at concrete inputs. -/
theorem c1_chain_identity_laws_witness :
    (Res.Ok (Val.int 3)).chain (fun x => Res.Err x) = Res.Err (Val.int 3) ∧
    (Res.Err (Val.int 2)).chain (fun x => Result.mkOk (some x)) =
      Res.Err (Val.int 2) :=
  ⟨c1_chain_identity_laws.1 (Val.int 3) (fun x => Res.Err x),
   c1_chain_identity_laws.2 (Res.Err (Val.int 2))⟩

/-- C2: `map` satisfies the functor composition law:
`Ok(v).map(f).map(g)` equals `Ok(v).map(x => g(f(x)))` for all `f`, `g`. -/
theorem c2_map_functor_composition :
    ∀ (v : Val) (f g : Val → Val),
      ((Res.Ok v).map f).map g = (Res.Ok v).map (fun x => g (f x)) := by
  intro v f g
  rfl

/-- C2 witness: the composition law at a concrete input. -/
theorem c2_map_functor_composition_witness :
    ((Res.Ok (Val.int 3)).map (fun x => x)).map (fun _ => Val.str "a") =
      (Res.Ok (Val.int 3)).map (fun x => (fun _ => Val.str "a") ((fun y => y) x)) :=
  c2_map_functor_composition (Val.int 3) (fun x => x) (fun _ => Val.str "a")

/-- C3: `Ok(v)` builds the success variant holding exactly `v`, so
`Ok(v).take()` returns `v`; `Err(e)` builds the failure variant holding
exactly `e`, so `Err(e).takeErr()` returns `e`. -/
theorem c3_constructors_hold_payload :
    ∀ v e : Val,
      Result.mkOk (some v) = Res.Ok v ∧
      (Result.mkOk (some v)).take = Except.ok v ∧
      Result.mkErr (some e) = Res.Err e ∧
      (Result.mkErr (some e)).takeErr = Except.ok e := by
  intro v e
  exact ⟨rfl, rfl, rfl, rfl⟩

/-- C3 witness: construction and extraction at concrete payloads. -/
theorem c3_constructors_hold_payload_witness :
    Result.mkOk (some (Val.int 5)) = Res.Ok (Val.int 5) ∧
    (Result.mkOk (some (Val.int 5))).take = Except.ok (Val.int 5) ∧
    Result.mkErr (some (Val.str "e")) = Res.Err (Val.str "e") ∧
    (Result.mkErr (some (Val.str "e"))).takeErr = Except.ok (Val.str "e") :=
  c3_constructors_hold_payload (Val.int 5) (Val.str "e")

/-- C4: `Err(e).take()` raises the variant-misuse error `Result.ERROR.take`
and `Ok(v).takeErr()` raises `Result.ERROR.takeErr`; extraction on the right
variant succeeds, and `toUnion` (hence every other operation of the algebra,
all of which are total functions into `Res` in this embedding) never raises. -/
theorem c4_variant_misuse_raises :
    (∀ e : Val, (Res.Err e).take = Except.error TakeError.take) ∧
    (∀ v : Val, (Res.Ok v).takeErr = Except.error TakeError.takeErr) ∧
    (∀ v : Val, (Res.Ok v).take = Except.ok v) ∧
    (∀ e : Val, (Res.Err e).takeErr = Except.ok e) ∧
    (∀ r : Res, r.toUnion = Except.ok r) := by
  refine ⟨fun e => rfl, fun v => rfl, fun v => rfl, fun e => rfl, fun r => ?_⟩
  cases r <;> rfl

/-- C4 witness: the misuse errors at concrete inputs. -/
theorem c4_variant_misuse_raises_witness :
    (Res.Err (Val.int 1)).take = Except.error TakeError.take ∧
    (Res.Ok (Val.int 1)).takeErr = Except.error TakeError.takeErr ∧
    (Res.Ok (Val.int 1)).toUnion = Except.ok (Res.Ok (Val.int 1)) :=
  ⟨c4_variant_misuse_raises.1 (Val.int 1),
   c4_variant_misuse_raises.2.1 (Val.int 1),
   c4_variant_misuse_raises.2.2.2.2 (Res.Ok (Val.int 1))⟩

/-- C5: on `Ok(v)`, `check(p, error?)` returns the receiver when `p v` holds
and otherwise a failure holding the given error, or the empty sentinel when
none was given; on `Err`, `check` returns the receiver and its result does
not depend on the predicate. -/
theorem c5_check_behaviour :
    (∀ (v : Val) (p : Val → Bool) (error : Option Val),
        p v = true → (Res.Ok v).check p error = Res.Ok v) ∧
    (∀ (v e : Val) (p : Val → Bool),
        p v = false → (Res.Ok v).check p (some e) = Res.Err e) ∧
    (∀ (v : Val) (p : Val → Bool),
        p v = false → (Res.Ok v).check p none = Res.Err Val.empty) ∧
    (∀ (e : Val) (p q : Val → Bool) (error : Option Val),
        (Res.Err e).check p error = Res.Err e ∧
        (Res.Err e).check p error = (Res.Err e).check q error) := by
  refine ⟨?_, ?_, ?_, ?_⟩
  · intro v p error hp
    simp [Res.check, hp]
  · intro v e p hp
    simp [Res.check, hp, Result.mkErr]
  · intro v p hp
    simp [Res.check, hp, Result.mkErr]
  · intro e p q error
    exact ⟨rfl, rfl⟩

/-- C5 witness: `check` at concrete inputs, with a passing predicate, a
failing predicate with and without an explicit error, and an `Err`
receiver. -/
theorem c5_check_behaviour_witness :
    (Res.Ok (Val.int 4)).check (fun _ => true) none = Res.Ok (Val.int 4) ∧
    (Res.Ok (Val.int 4)).check (fun _ => false) (some (Val.str "bad")) =
      Res.Err (Val.str "bad") ∧
    (Res.Ok (Val.int 4)).check (fun _ => false) none = Res.Err Val.empty ∧
    (Res.Err (Val.int 9)).check (fun _ => false) none = Res.Err (Val.int 9) :=
  ⟨c5_check_behaviour.1 (Val.int 4) (fun _ => true) none rfl,
   c5_check_behaviour.2.1 (Val.int 4) (Val.str "bad") (fun _ => false) rfl,
   c5_check_behaviour.2.2.1 (Val.int 4) (fun _ => false) rfl,
   (c5_check_behaviour.2.2.2 (Val.int 9) (fun _ => false) (fun _ => true) none).1⟩

/-- C6: `FromTryCatch(fn, mapper?)` wraps a returned value in a success
`Result` (with or without a mapper), and wraps a thrown value `t` in a
failure `Result` holding `t`, or `mapper(t)` when a mapper is supplied. -/
theorem c6_fromTryCatch_behaviour :
    (∀ (v : Val) (mapper : Option (Val → Val)),
        Result.FromTryCatch (Except.ok v) mapper = Res.Ok v) ∧
    (∀ t : Val, Result.FromTryCatch (Except.error t) none = Res.Err t) ∧
    (∀ (t : Val) (m : Val → Val),
        Result.FromTryCatch (Except.error t) (some m) = Res.Err (m t)) := by
  refine ⟨fun v mapper => ?_, fun t => rfl, fun t m => rfl⟩
  cases mapper <;> rfl

/-- C6 witness: the two examples of the spec,
`FromTryCatch(() => 42)` and `FromTryCatch(() => { throw "boom" })`. -/
theorem c6_fromTryCatch_behaviour_witness :
    Result.FromTryCatch (Except.ok (Val.int 42)) none = Res.Ok (Val.int 42) ∧
    Result.FromTryCatch (Except.error (Val.str "boom")) none =
      Res.Err (Val.str "boom") :=
  ⟨c6_fromTryCatch_behaviour.1 (Val.int 42) none,
   c6_fromTryCatch_behaviour.2.1 (Val.str "boom")⟩

/-- C7: `or(alt)` returns the receiver on success and the alternative
(`alt`, or `alt(e)` when `alt` is a function) on failure; `orIf(p, alt)`
does the same but uses the alternative only when `p(e)` holds, returning the
failure unchanged otherwise. -/
theorem c7_or_orIf_behaviour :
    (∀ (v : Val) (other : Alt), (Res.Ok v).or other = Res.Ok v) ∧
    (∀ (e : Val) (a : Res), (Res.Err e).or (Alt.val a) = a) ∧
    (∀ (e : Val) (f : Val → Res), (Res.Err e).or (Alt.fn f) = f e) ∧
    (∀ (v : Val) (p : Val → Bool) (other : Alt),
        (Res.Ok v).orIf p other = Res.Ok v) ∧
    (∀ (e : Val) (p : Val → Bool) (other : Alt),
        p e = true → (Res.Err e).orIf p other = other.run e) ∧
    (∀ (e : Val) (p : Val → Bool) (other : Alt),
        p e = false → (Res.Err e).orIf p other = Res.Err e) := by
  refine ⟨fun v other => rfl, fun e a => rfl, fun e f => rfl,
    fun v p other => rfl, ?_, ?_⟩
  · intro e p other hp
    simp [Res.orIf, hp]
  · intro e p other hp
    simp [Res.orIf, hp]

/-- C7 witness: `or` and `orIf` at concrete inputs. -/
theorem c7_or_orIf_behaviour_witness :
    (Res.Ok (Val.int 1)).or (Alt.val (Res.Ok (Val.int 2))) = Res.Ok (Val.int 1) ∧
    (Res.Err (Val.int 3)).or (Alt.val (Res.Ok (Val.int 2))) = Res.Ok (Val.int 2) ∧
    (Res.Err (Val.int 3)).or (Alt.fn (fun e => Res.Ok e)) = Res.Ok (Val.int 3) ∧
    (Res.Err (Val.int 3)).orIf (fun _ => true) (Alt.val (Res.Ok (Val.int 2))) =
      Res.Ok (Val.int 2) ∧
    (Res.Err (Val.int 3)).orIf (fun _ => false) (Alt.val (Res.Ok (Val.int 2))) =
      Res.Err (Val.int 3) :=
  ⟨c7_or_orIf_behaviour.1 (Val.int 1) (Alt.val (Res.Ok (Val.int 2))),
   c7_or_orIf_behaviour.2.1 (Val.int 3) (Res.Ok (Val.int 2)),
   c7_or_orIf_behaviour.2.2.1 (Val.int 3) (fun e => Res.Ok e),
   c7_or_orIf_behaviour.2.2.2.2.1 (Val.int 3) (fun _ => true)
     (Alt.val (Res.Ok (Val.int 2))) rfl,
   c7_or_orIf_behaviour.2.2.2.2.2 (Val.int 3) (fun _ => false)
     (Alt.val (Res.Ok (Val.int 2))) rfl⟩

/-- C8: `unfold()` flattens exactly one level: on a success holding a
`Result` it returns that inner `Result`; on a failure, or a success whose
payload is not a `Result`, it returns the receiver unchanged. -/
theorem c8_unfold_behaviour :
    (∀ r : Res, (Res.Ok (Val.res r)).unfold = r) ∧
    (∀ e : Val, (Res.Err e).unfold = Res.Err e) ∧
    (∀ v : Val, v.isRes = false → (Res.Ok v).unfold = Res.Ok v) := by
  refine ⟨fun r => rfl, fun e => rfl, fun v hv => ?_⟩
  cases v with
  | res r => simp [Val.isRes] at hv
  | empty => rfl
  | int n => rfl
  | str s => rfl

/-- C8 witness: `Ok(Ok(5)).unfold()` yields `Ok(5)`, and `Ok(5).unfold()`
yields `Ok(5)` unchanged. -/
theorem c8_unfold_behaviour_witness :
    (Res.Ok (Val.res (Res.Ok (Val.int 5)))).unfold = Res.Ok (Val.int 5) ∧
    (Res.Ok (Val.int 5)).unfold = Res.Ok (Val.int 5) :=
  ⟨c8_unfold_behaviour.1 (Res.Ok (Val.int 5)),
   c8_unfold_behaviour.2.2 (Val.int 5) rfl⟩

/-- C9: `onOk(effect)` and `onErr(effect)` run the effect on the payload
exactly when the matching variant is active (the state is transformed by the
effect then, and untouched otherwise) and always return the original
`Result`, whatever the effect does to the state. -/
theorem c9_onOk_onErr_behaviour :
    (∀ (σ : Type) (eff : Val → σ → σ) (s : σ) (v : Val),
        (Res.Ok v).onOk eff s = (Res.Ok v, eff v s)) ∧
    (∀ (σ : Type) (eff : Val → σ → σ) (s : σ) (e : Val),
        (Res.Err e).onOk eff s = (Res.Err e, s)) ∧
    (∀ (σ : Type) (eff : Val → σ → σ) (s : σ) (e : Val),
        (Res.Err e).onErr eff s = (Res.Err e, eff e s)) ∧
    (∀ (σ : Type) (eff : Val → σ → σ) (s : σ) (v : Val),
        (Res.Ok v).onErr eff s = (Res.Ok v, s)) :=
  ⟨fun _ _ _ _ => rfl, fun _ _ _ _ => rfl, fun _ _ _ _ => rfl,
   fun _ _ _ _ => rfl⟩

/-- C9 witness: logging effects at concrete inputs; the effect records the
payload it is invoked on, and the original `Result` comes back unchanged. -/
theorem c9_onOk_onErr_behaviour_witness :
    (Res.Ok (Val.int 6)).onOk (fun v l => v :: l) ([] : List Val) =
      (Res.Ok (Val.int 6), [Val.int 6]) ∧
    (Res.Err (Val.int 7)).onOk (fun v l => v :: l) ([] : List Val) =
      (Res.Err (Val.int 7), []) ∧
    (Res.Err (Val.int 7)).onErr (fun v l => v :: l) ([] : List Val) =
      (Res.Err (Val.int 7), [Val.int 7]) :=
  ⟨c9_onOk_onErr_behaviour.1 (List Val) (fun v l => v :: l) [] (Val.int 6),
   c9_onOk_onErr_behaviour.2.1 (List Val) (fun v l => v :: l) [] (Val.int 7),
   c9_onOk_onErr_behaviour.2.2.1 (List Val) (fun v l => v :: l) [] (Val.int 7)⟩

/-- Heap extension is reflexive. -/
theorem Heap.ext_refl (h : Heap) : Heap.Ext h h :=
  ⟨Nat.le_refl _, fun _ _ => rfl⟩

/-- Heap extension is transitive. -/
theorem Heap.ext_trans {h3 h2 h1 : Heap} (g : Heap.Ext h3 h2)
    (e : Heap.Ext h2 h1) : Heap.Ext h3 h1 :=
  ⟨Nat.le_trans e.1 g.1,
   fun i hi => (g.2 i (Nat.lt_of_lt_of_le hi e.1)).trans (e.2 i hi)⟩

/-- Allocation extends the heap: every previously constructed instance is
unchanged. -/
theorem Heap.ext_alloc (h : Heap) (c : Cell) : Heap.Ext (h.alloc c).1 h := by
  refine ⟨Nat.le_succ _, fun i hi => ?_⟩
  simp [Heap.alloc, Nat.ne_of_lt hi]

/-- `unfold` never touches the heap: it only selects an existing instance. -/
theorem Heap.unfoldH_fst (h : Heap) (i : Nat) : (Heap.unfoldH h i).1 = h := by
  unfold Heap.unfoldH
  dsimp only
  split
  · split <;> rfl
  · rfl

/-- C10 counterexample: `map` called on the already constructed `Err`
instance with id `0` returns that very instance (id `0`, no allocation, heap
untouched): the combinator does not produce a new `Result` instance. -/
theorem c10_map_err_returns_receiver :
    Heap.mapH errHeap 0 (fun v => v) = (errHeap, 0) ∧
    ¬ errHeap.next ≤ (Heap.mapH errHeap 0 (fun v => v)).2 :=
  ⟨rfl, by decide⟩

/-- C10 (amended): every `Result` is immutable — no combinator ever changes
the variant or payload of an already constructed instance; the output heap
of each of `map`, `refine`, `chain`, `check`, `assert`, `or`, `orIf`,
`unfold`, `onOk` and `onErr` extends the input heap (user-supplied functions
being assumed to only extend it as well).  Combinators do not always return
a new instance, however: several return the receiver itself. -/
theorem c10_combinators_never_mutate :
    (∀ (h : Heap) (self : Nat) (f : HVal → HVal),
        Heap.Ext (Heap.mapH h self f).1 h) ∧
    (∀ (h : Heap) (self : Nat) (f : HVal → HVal),
        Heap.Ext (Heap.refineH h self f).1 h) ∧
    (∀ (h : Heap) (self : Nat) (p : HVal → Bool) (e : Option HVal),
        Heap.Ext (Heap.checkH h self p e).1 h) ∧
    (∀ (h : Heap) (self : Nat) (g : HVal → Bool) (e : Option HVal),
        Heap.Ext (Heap.assertH h self g e).1 h) ∧
    (∀ (h : Heap) (self : Nat), Heap.Ext (Heap.unfoldH h self).1 h) ∧
    (∀ (h : Heap) (self : Nat) (f : HVal → Heap → Heap × Nat),
        (∀ v hh, Heap.Ext (f v hh).1 hh) →
        Heap.Ext (Heap.chainH h self f).1 h) ∧
    (∀ (h : Heap) (self : Nat) (other : HAlt),
        other.Extends → Heap.Ext (Heap.orH h self other).1 h) ∧
    (∀ (h : Heap) (self : Nat) (p : HVal → Bool) (other : HAlt),
        other.Extends → Heap.Ext (Heap.orIfH h self p other).1 h) ∧
    (∀ (h : Heap) (self : Nat) (eff : HVal → Heap → Heap),
        (∀ v hh, Heap.Ext (eff v hh) hh) →
        Heap.Ext (Heap.onOkH h self eff).1 h) ∧
    (∀ (h : Heap) (self : Nat) (eff : HVal → Heap → Heap),
        (∀ v hh, Heap.Ext (eff v hh) hh) →
        Heap.Ext (Heap.onErrH h self eff).1 h) := by
  refine ⟨?_, ?_, ?_, ?_, ?_, ?_, ?_, ?_, ?_, ?_⟩
  · intro h self f
    unfold Heap.mapH
    dsimp only
    split
    · exact Heap.ext_alloc h _
    · exact Heap.ext_refl h
  · intro h self f
    unfold Heap.refineH
    dsimp only
    split
    · exact Heap.ext_refl h
    · exact Heap.ext_alloc h _
  · intro h self p e
    unfold Heap.checkH
    dsimp only
    split
    · split
      · exact Heap.ext_refl h
      · exact Heap.ext_alloc h _
    · exact Heap.ext_refl h
  · intro h self g e
    unfold Heap.assertH
    dsimp only
    split
    · split
      · exact Heap.ext_refl h
      · exact Heap.ext_alloc h _
    · exact Heap.ext_refl h
  · intro h self
    rw [Heap.unfoldH_fst]
    exact Heap.ext_refl h
  · intro h self f hf
    unfold Heap.chainH
    dsimp only
    split
    · rw [Heap.unfoldH_fst]
      exact Heap.ext_trans (Heap.ext_alloc _ _) (hf _ h)
    · exact Heap.ext_refl h
  · intro h self other hother
    unfold Heap.orH
    dsimp only
    split
    · exact Heap.ext_refl h
    · cases other with
      | val i => exact Heap.ext_refl h
      | fn f => exact hother _ h
  · intro h self p other hother
    unfold Heap.orIfH
    dsimp only
    split
    · exact Heap.ext_refl h
    · split
      · cases other with
        | val i => exact Heap.ext_refl h
        | fn f => exact hother _ h
      · exact Heap.ext_refl h
  · intro h self eff heff
    unfold Heap.onOkH
    dsimp only
    split
    · exact heff _ h
    · exact Heap.ext_refl h
  · intro h self eff heff
    unfold Heap.onErrH
    dsimp only
    split
    · exact Heap.ext_refl h
    · exact heff _ h

/-- C10 witness: the no-mutation property applied on the concrete one-cell
heap, for a plain `map` call and for a `chain` call whose user function
returns an existing instance without allocating. -/
theorem c10_combinators_never_mutate_witness :
    Heap.Ext (Heap.mapH errHeap 0 (fun v => v)).1 errHeap ∧
    Heap.Ext (Heap.chainH errHeap 0 (fun _ hh => (hh, 0))).1 errHeap ∧
    Heap.Ext (Heap.onOkH errHeap 0 (fun _ hh => hh)).1 errHeap :=
  ⟨c10_combinators_never_mutate.1 errHeap 0 (fun v => v),
   c10_combinators_never_mutate.2.2.2.2.2.1 errHeap 0 (fun _ hh => (hh, 0))
     (fun _ hh => Heap.ext_refl hh),
   c10_combinators_never_mutate.2.2.2.2.2.2.2.2.1 errHeap 0 (fun _ hh => hh)
     (fun _ hh => Heap.ext_refl hh)⟩

end Vize
